import Mathlib

/-!
Shallow embedding of `openconcept/components/splitter.py` (`PowerSplit`).

The component is purely elementwise algebra over a batch of `num_nodes`
operating points.  We model the numeric arrays as functions `Fin nn → ℚ`
(the source works in floating point; all formulas are exact rational
algebra, so ℚ is the faithful exact model).  The numpy masked assignments
in the `fixed` rule (`not_enough_idx` / `enough_idx`, which partition the
index range by `power_in < power_split_amount` vs `>=`) are modelled as a
per-node if/else on the same comparison.
-/

namespace PowerSplit

/-- The two recognized control rules: `'fraction'` and `'fixed'`
(the spec calls them `proportional` and `fixed_amount`). -/
inductive Rule where
  | fraction
  | fixed
deriving DecidableEq

/-- The options declared in `PowerSplit.initialize`: number of nodes, the
control rule, and the technology factors (efficiency, weight/cost
coefficients).  Configuration is immutable once set. -/
structure Options where
  num_nodes : ℕ
  rule : Rule
  efficiency : ℚ
  weight_inc : ℚ
  weight_base : ℚ
  cost_inc : ℚ
  cost_base : ℚ

/-- The inputs added in `PowerSplit.setup`: `power_in` (length `nn`),
`power_rating` (scalar), and the rule-selected control input
(`power_split_fraction` for the `fraction` rule, `power_split_amount` for
the `fixed` rule), held in the single field `power_split`. -/
structure Inputs (nn : ℕ) where
  power_in : Fin nn → ℚ
  power_rating : ℚ
  power_split : Fin nn → ℚ

/-- The outputs added in `PowerSplit.setup`. -/
structure Outputs (nn : ℕ) where
  power_out_A : Fin nn → ℚ
  power_out_B : Fin nn → ℚ
  heat_out : Fin nn → ℚ
  component_cost : ℚ
  component_weight : ℚ
  component_sizing_margin : Fin nn → ℚ

/-- `PowerSplit.compute`: the value computation, node by node. -/
def compute (o : Options) (ins : Inputs o.num_nodes) : Outputs o.num_nodes where
  power_out_A := fun i =>
    match o.rule with
    | Rule.fraction => ins.power_in i * ins.power_split i * o.efficiency
    | Rule.fixed =>
        if ins.power_in i < ins.power_split i then
          ins.power_in i * o.efficiency
        else
          ins.power_split i * o.efficiency
  power_out_B := fun i =>
    match o.rule with
    | Rule.fraction => ins.power_in i * (1 - ins.power_split i) * o.efficiency
    | Rule.fixed =>
        if ins.power_in i < ins.power_split i then
          0
        else
          (ins.power_in i - ins.power_split i) * o.efficiency
  heat_out := fun i => ins.power_in i * (1 - o.efficiency)
  component_cost := ins.power_rating * o.cost_inc + o.cost_base
  component_weight := ins.power_rating * o.weight_inc + o.weight_base
  component_sizing_margin := fun i => ins.power_in i / ins.power_rating

/-- The Jacobian entries set in `PowerSplit.compute_partials` (the
diagonal, per-node blocks for the rule outputs and the sizing margin). -/
structure Jacobian (nn : ℕ) where
  dA_dpower_in : Fin nn → ℚ
  dA_dpower_split : Fin nn → ℚ
  dB_dpower_in : Fin nn → ℚ
  dB_dpower_split : Fin nn → ℚ
  dmargin_dpower_in : Fin nn → ℚ
  dmargin_dpower_rating : Fin nn → ℚ

/-- `PowerSplit.compute_partials`: the analytic partial derivatives,
node by node. -/
def compute_partials (o : Options) (ins : Inputs o.num_nodes) :
    Jacobian o.num_nodes where
  dA_dpower_in := fun i =>
    match o.rule with
    | Rule.fraction => ins.power_split i * o.efficiency
    | Rule.fixed =>
        if ins.power_in i < ins.power_split i then o.efficiency else 0
  dA_dpower_split := fun i =>
    match o.rule with
    | Rule.fraction => ins.power_in i * o.efficiency
    | Rule.fixed =>
        if ins.power_in i < ins.power_split i then 0 else o.efficiency
  dB_dpower_in := fun i =>
    match o.rule with
    | Rule.fraction => (1 - ins.power_split i) * o.efficiency
    | Rule.fixed =>
        if ins.power_in i < ins.power_split i then 0 else o.efficiency
  dB_dpower_split := fun i =>
    match o.rule with
    | Rule.fraction => -ins.power_in i * o.efficiency
    | Rule.fixed =>
        if ins.power_in i < ins.power_split i then 0 else -o.efficiency
  dmargin_dpower_in := fun _ => 1 / ins.power_rating
  dmargin_dpower_rating := fun i =>
    -ins.power_in i / ins.power_rating ^ 2

/-- The constant partial of `heat_out` w.r.t. `power_in`, declared with a
fixed value `(1 - eta)` in `PowerSplit.setup` (`declare_partials`). -/
def heat_out_partial (o : Options) : ℚ := 1 - o.efficiency

/-- The constant partial of `component_cost` w.r.t. `power_rating`,
declared with a fixed value `cost_inc` in `PowerSplit.setup`. -/
def component_cost_partial (o : Options) : ℚ := o.cost_inc

/-- The constant partial of `component_weight` w.r.t. `power_rating`,
declared with a fixed value `weight_inc` in `PowerSplit.setup`. -/
def component_weight_partial (o : Options) : ℚ := o.weight_inc

/-- Construction (`PowerSplit(rule=..., ...)`): `PowerSplit.initialize`
only declares the `rule` option (with default `'fraction'` and no
restriction on its value), so construction stores whatever string it is
given and performs no validation. -/
structure RawComponent where
  rule : String

/-- Construction of the component: always succeeds, storing the raw rule
string (no branch in `PowerSplit.initialize` can fail). -/
def construct (rule : String) : RawComponent := { rule := rule }

/-- The rule validation performed inside `PowerSplit.setup`: the string
option is compared against `'fraction'` and `'fixed'`; anything else
raises `ValueError` mid-setup. -/
def setupRule (c : RawComponent) : Except String Rule :=
  if c.rule = "fraction" then Except.ok Rule.fraction
  else if c.rule = "fixed" then Except.ok Rule.fixed
  else Except.error "Specify either \"fraction\" or \"fixed\" as power split control rule"

/-! Example configurations and inputs used to instantiate the theorems. -/

/-- A `fraction`-rule configuration matching the spec's worked example
(`efficiency = 0.98`). -/
abbrev exFractionOpts : Options :=
  { num_nodes := 1, rule := Rule.fraction, efficiency := 98/100,
    weight_inc := 2/10, weight_base := 20, cost_inc := 5/100, cost_base := 10000 }

/-- Inputs for the `fraction` example: `power_in = 100`,
`power_split_fraction = 0.7`, `power_rating = 150`. -/
abbrev exFractionIns : Inputs exFractionOpts.num_nodes :=
  { power_in := fun _ => 100, power_rating := 150, power_split := fun _ => 7/10 }

/-- A `fixed`-rule configuration with `efficiency = 1` for the saturation
example. -/
abbrev exFixedOpts : Options :=
  { num_nodes := 1, rule := Rule.fixed, efficiency := 1,
    weight_inc := 0, weight_base := 0, cost_inc := 0, cost_base := 0 }

/-- Inputs for the saturation example: `power_in = 50`,
`power_split_amount = 80`. -/
abbrev exFixedIns : Inputs exFixedOpts.num_nodes :=
  { power_in := fun _ => 50, power_rating := 100, power_split := fun _ => 80 }

/-- A two-node `fixed`-rule configuration with `efficiency = 3/4`: node 0
is in the insufficient-supply branch, node 1 sits exactly on the boundary
`power_in = power_split_amount`. -/
abbrev exFixed2Opts : Options :=
  { num_nodes := 2, rule := Rule.fixed, efficiency := 3/4,
    weight_inc := 0, weight_base := 0, cost_inc := 0, cost_base := 0 }

/-- Inputs for the two-node `fixed` example: `power_in = (10, 30)`,
`power_split_amount = (20, 30)`. -/
abbrev exFixed2Ins : Inputs exFixed2Opts.num_nodes :=
  { power_in := fun i => if i = 0 then 10 else 30,
    power_rating := 40,
    power_split := fun i => if i = 0 then 20 else 30 }

/-- A second input vector for the `fraction` example, differing from
`exFractionIns` in `power_in` and `power_split` but with the same
`power_rating`. -/
abbrev exFractionIns2 : Inputs exFractionOpts.num_nodes :=
  { power_in := fun _ => 777, power_rating := 150, power_split := fun _ => 1/3 }

/-- C1: for every configuration (either rule, any efficiency) and every
node of every input vector, `power_out_A + power_out_B + heat_out =
power_in` (energy conservation, exact in rational arithmetic). -/
theorem C1_energy_conservation (o : Options) (ins : Inputs o.num_nodes)
    (i : Fin o.num_nodes) :
    (compute o ins).power_out_A i + (compute o ins).power_out_B i +
      (compute o ins).heat_out i = ins.power_in i := by
  obtain ⟨nn, rule, eff, wi, wb, ci, cb⟩ := o
  cases rule <;> simp only [compute]
  · ring
  · split_ifs <;> ring

/-- C2: under the `fixed` rule, per node: if `power_in < split_amount`
then `power_out_A = power_in * η` and `power_out_B = 0` (saturation);
if `split_amount ≤ power_in` then `power_out_A = split_amount * η` and
`power_out_B = (power_in - split_amount) * η`; in particular the boundary
`power_in = split_amount` takes the sufficient-supply branch. -/
theorem C2_fixed_evaluate (o : Options) (ins : Inputs o.num_nodes)
    (i : Fin o.num_nodes) (h : o.rule = Rule.fixed) :
    (ins.power_in i < ins.power_split i →
      (compute o ins).power_out_A i = ins.power_in i * o.efficiency ∧
      (compute o ins).power_out_B i = 0) ∧
    (ins.power_split i ≤ ins.power_in i →
      (compute o ins).power_out_A i = ins.power_split i * o.efficiency ∧
      (compute o ins).power_out_B i
        = (ins.power_in i - ins.power_split i) * o.efficiency) ∧
    (ins.power_in i = ins.power_split i →
      (compute o ins).power_out_A i = ins.power_split i * o.efficiency ∧
      (compute o ins).power_out_B i
        = (ins.power_in i - ins.power_split i) * o.efficiency) := by
  simp only [compute, h]
  refine ⟨fun hlt => ?_, fun hle => ?_, fun heq => ?_⟩
  · rw [if_pos hlt, if_pos hlt]; exact ⟨rfl, rfl⟩
  · rw [if_neg (not_lt.mpr hle), if_neg (not_lt.mpr hle)]; exact ⟨rfl, rfl⟩
  · rw [if_neg (not_lt.mpr heq.ge), if_neg (not_lt.mpr heq.ge)]; exact ⟨rfl, rfl⟩

/-- C2 witness: the saturation example `power_in = 50`,
`split_amount = 80`, `η = 1` gives `power_out_A = 50`, `power_out_B = 0`. -/
theorem C2_fixed_evaluate_witness :
    (compute exFixedOpts exFixedIns).power_out_A 0 = 50 ∧
    (compute exFixedOpts exFixedIns).power_out_B 0 = 0 := by
  obtain ⟨hA, hB⟩ := (C2_fixed_evaluate exFixedOpts exFixedIns 0 rfl).1 (by norm_num)
  exact ⟨hA.trans (by norm_num), hB⟩

/-- C3: under the `fixed` rule, per node: in the insufficient-supply
branch (`power_in < split_amount`) the partials are ∂A/∂power_in = η and
∂A/∂split = ∂B/∂power_in = ∂B/∂split = 0; otherwise (including the
boundary `power_in = split_amount`) ∂A/∂power_in = 0, ∂A/∂split = η,
∂B/∂power_in = η, ∂B/∂split = −η. -/
theorem C3_fixed_partials (o : Options) (ins : Inputs o.num_nodes)
    (i : Fin o.num_nodes) (h : o.rule = Rule.fixed) :
    (ins.power_in i < ins.power_split i →
      (compute_partials o ins).dA_dpower_in i = o.efficiency ∧
      (compute_partials o ins).dA_dpower_split i = 0 ∧
      (compute_partials o ins).dB_dpower_in i = 0 ∧
      (compute_partials o ins).dB_dpower_split i = 0) ∧
    (ins.power_split i ≤ ins.power_in i →
      (compute_partials o ins).dA_dpower_in i = 0 ∧
      (compute_partials o ins).dA_dpower_split i = o.efficiency ∧
      (compute_partials o ins).dB_dpower_in i = o.efficiency ∧
      (compute_partials o ins).dB_dpower_split i = -o.efficiency) := by
  constructor
  · intro hlt
    simp [compute_partials, h, if_pos hlt]
  · intro hle
    simp [compute_partials, h, if_neg (not_lt.mpr hle)]

/-- C3 witness: with `power_in = (10, 30)`, `split_amount = (20, 30)`,
`η = 3/4`, node 0 takes the insufficient branch and node 1 (exactly on
the boundary) takes the sufficient branch. -/
theorem C3_fixed_partials_witness :
    ((compute_partials exFixed2Opts exFixed2Ins).dA_dpower_in 0 = 3/4 ∧
      (compute_partials exFixed2Opts exFixed2Ins).dA_dpower_split 0 = 0 ∧
      (compute_partials exFixed2Opts exFixed2Ins).dB_dpower_in 0 = 0 ∧
      (compute_partials exFixed2Opts exFixed2Ins).dB_dpower_split 0 = 0) ∧
    ((compute_partials exFixed2Opts exFixed2Ins).dA_dpower_in 1 = 0 ∧
      (compute_partials exFixed2Opts exFixed2Ins).dA_dpower_split 1 = 3/4 ∧
      (compute_partials exFixed2Opts exFixed2Ins).dB_dpower_in 1 = 3/4 ∧
      (compute_partials exFixed2Opts exFixed2Ins).dB_dpower_split 1 = -(3/4)) := by
  constructor
  · exact (C3_fixed_partials exFixed2Opts exFixed2Ins 0 rfl).1 (by norm_num)
  · exact (C3_fixed_partials exFixed2Opts exFixed2Ins 1 rfl).2 (by norm_num)

/-- C4: under the `fraction` rule, per node, `power_out_A = power_in *
split_fraction * η`, `power_out_B = power_in * (1 - split_fraction) * η`,
and `heat_out = power_in * (1 - η)`. -/
theorem C4_fraction_evaluate (o : Options) (ins : Inputs o.num_nodes)
    (i : Fin o.num_nodes) (h : o.rule = Rule.fraction) :
    (compute o ins).power_out_A i
      = ins.power_in i * ins.power_split i * o.efficiency ∧
    (compute o ins).power_out_B i
      = ins.power_in i * (1 - ins.power_split i) * o.efficiency ∧
    (compute o ins).heat_out i = ins.power_in i * (1 - o.efficiency) := by
  simp [compute, h]

/-- C4 witness: `power_in = 100`, `split_fraction = 0.7`, `η = 0.98`
gives `power_out_A = 68.6`, `power_out_B = 29.4`, `heat_out = 2`. -/
theorem C4_fraction_evaluate_witness :
    (compute exFractionOpts exFractionIns).power_out_A 0 = 343/5 ∧
    (compute exFractionOpts exFractionIns).power_out_B 0 = 147/5 ∧
    (compute exFractionOpts exFractionIns).heat_out 0 = 2 := by
  obtain ⟨hA, hB, hH⟩ := C4_fraction_evaluate exFractionOpts exFractionIns 0 rfl
  exact ⟨hA.trans (by norm_num), hB.trans (by norm_num), hH.trans (by norm_num)⟩

/-- C5: under the `fraction` rule, per node, ∂A/∂power_in =
split_fraction·η, ∂A/∂split_fraction = power_in·η, ∂B/∂power_in =
(1−split_fraction)·η, ∂B/∂split_fraction = −power_in·η.
`compute_partials` is a pure function of the given input vector, so no
state from a prior `compute` is involved. -/
theorem C5_fraction_partials (o : Options) (ins : Inputs o.num_nodes)
    (i : Fin o.num_nodes) (h : o.rule = Rule.fraction) :
    (compute_partials o ins).dA_dpower_in i
      = ins.power_split i * o.efficiency ∧
    (compute_partials o ins).dA_dpower_split i
      = ins.power_in i * o.efficiency ∧
    (compute_partials o ins).dB_dpower_in i
      = (1 - ins.power_split i) * o.efficiency ∧
    (compute_partials o ins).dB_dpower_split i
      = -(ins.power_in i * o.efficiency) := by
  simp [compute_partials, h, neg_mul]

/-- C5 witness: the `fraction` partials at `power_in = 100`,
`split_fraction = 0.7`, `η = 0.98`. -/
theorem C5_fraction_partials_witness :
    (compute_partials exFractionOpts exFractionIns).dA_dpower_in 0 = 343/500 ∧
    (compute_partials exFractionOpts exFractionIns).dA_dpower_split 0 = 98 ∧
    (compute_partials exFractionOpts exFractionIns).dB_dpower_in 0 = 147/500 ∧
    (compute_partials exFractionOpts exFractionIns).dB_dpower_split 0 = -98 := by
  obtain ⟨h1, h2, h3, h4⟩ :=
    C5_fraction_partials exFractionOpts exFractionIns 0 rfl
  exact ⟨h1.trans (by norm_num), h2.trans (by norm_num),
    h3.trans (by norm_num), h4.trans (by norm_num)⟩

/-- C6: for every configuration under either rule and every input,
`heat_out = power_in * (1 - η)` at every node; the value is unchanged by
swapping the rule and by any change of the split control input. -/
theorem C6_heat_out (o : Options) (ins : Inputs o.num_nodes)
    (i : Fin o.num_nodes) (g : Fin o.num_nodes → ℚ) :
    (compute o ins).heat_out i = ins.power_in i * (1 - o.efficiency) ∧
    (compute { o with rule := Rule.fraction } ins).heat_out i
      = (compute { o with rule := Rule.fixed } ins).heat_out i ∧
    (compute o { ins with power_split := g }).heat_out i
      = (compute o ins).heat_out i :=
  ⟨rfl, rfl, rfl⟩

/-- C7 counterexample: constructing the component with the unrecognized
rule `"invalid"` does NOT raise at construction — `initialize` declares
the `rule` option with no value restriction, so construction succeeds and
stores the bad string; the error is only raised once `setup` runs (the
claim says the failure must happen at construction and "must not proceed
to setup", but the source's validation lives inside `setup`). -/
theorem C7_construction_counterexample :
    construct "invalid" = { rule := "invalid" } ∧
    setupRule (construct "invalid") =
      Except.error
        "Specify either \"fraction\" or \"fixed\" as power split control rule" :=
  ⟨rfl, rfl⟩

/-- C7 amended: for any rule string other than `"fraction"` and
`"fixed"`, construction succeeds without validation and the error
(`ValueError` in the source, the spec's `ConfigurationError`) is raised
during `setup`, so setup never completes and no evaluation can occur. -/
theorem C7_setup_rejects_bad_rule (rule : String)
    (h1 : rule ≠ "fraction") (h2 : rule ≠ "fixed") :
    construct rule = { rule := rule } ∧
    setupRule (construct rule) =
      Except.error
        "Specify either \"fraction\" or \"fixed\" as power split control rule" := by
  refine ⟨rfl, ?_⟩
  simp [setupRule, construct, h1, h2]

/-- C7 witness: the amended statement at the concrete rule `"invalid"`. -/
theorem C7_setup_rejects_bad_rule_witness :
    construct "invalid" = { rule := "invalid" } ∧
    setupRule (construct "invalid") =
      Except.error
        "Specify either \"fraction\" or \"fixed\" as power split control rule" :=
  C7_setup_rejects_bad_rule "invalid" (by decide) (by decide)

/-- C8: for every configuration and input, `component_sizing_margin =
power_in / power_rating` elementwise, and the partials are
∂margin/∂power_in = 1/power_rating and ∂margin/∂power_rating =
−power_in/power_rating².  The computation is total — no guard and no
error path exists for zero or negative `power_rating` (in this exact
rational model division by zero yields 0 where floating point would give
`Inf`/`NaN`; either way the source raises nothing). -/
theorem C8_sizing_margin (o : Options) (ins : Inputs o.num_nodes)
    (i : Fin o.num_nodes) :
    (compute o ins).component_sizing_margin i
      = ins.power_in i / ins.power_rating ∧
    (compute_partials o ins).dmargin_dpower_in i = 1 / ins.power_rating ∧
    (compute_partials o ins).dmargin_dpower_rating i
      = -ins.power_in i / ins.power_rating ^ 2 :=
  ⟨rfl, rfl, rfl⟩

/-- C9: `component_cost` and `component_weight` are the affine functions
`power_rating * cost_inc + cost_base` and `power_rating * weight_inc +
weight_base` of `power_rating` alone — unchanged between any two input
vectors sharing the same `power_rating` — and the only partials declared
for them are the constants `cost_inc` and `weight_inc` w.r.t.
`power_rating`. -/
theorem C9_cost_weight (o : Options) (ins ins2 : Inputs o.num_nodes)
    (h : ins.power_rating = ins2.power_rating) :
    (compute o ins).component_cost
      = ins.power_rating * o.cost_inc + o.cost_base ∧
    (compute o ins).component_weight
      = ins.power_rating * o.weight_inc + o.weight_base ∧
    (compute o ins).component_cost = (compute o ins2).component_cost ∧
    (compute o ins).component_weight = (compute o ins2).component_weight ∧
    component_cost_partial o = o.cost_inc ∧
    component_weight_partial o = o.weight_inc := by
  refine ⟨rfl, rfl, ?_, ?_, rfl, rfl⟩ <;> simp [compute, h]

/-- C9 witness: the two `fraction`-example input vectors differ in
`power_in` (100 vs 777) and `power_split` (0.7 vs 1/3) but share
`power_rating = 150`, and produce the same cost (10007.5) and weight (50). -/
theorem C9_cost_weight_witness :
    (compute exFractionOpts exFractionIns).component_cost = 20015/2 ∧
    (compute exFractionOpts exFractionIns).component_cost
      = (compute exFractionOpts exFractionIns2).component_cost ∧
    (compute exFractionOpts exFractionIns).component_weight = 50 ∧
    (compute exFractionOpts exFractionIns).component_weight
      = (compute exFractionOpts exFractionIns2).component_weight := by
  obtain ⟨hc, hw, hc2, hw2, _, _⟩ :=
    C9_cost_weight exFractionOpts exFractionIns exFractionIns2 rfl
  exact ⟨hc.trans (by norm_num), hc2, hw.trans (by norm_num), hw2⟩

/-- C10: under the `fixed` rule the per-node outputs have the closed form
`power_out_A = η * min power_in split_amount` and `power_out_B =
η * max (power_in - split_amount) 0` for inputs of any sign; hence for
`η ≥ 0`, `power_out_B ≥ 0` always, and `power_out_A ≤ η * split_amount`
when `power_in ≥ 0`. -/
theorem C10_fixed_closed_form (o : Options) (ins : Inputs o.num_nodes)
    (i : Fin o.num_nodes) (h : o.rule = Rule.fixed) :
    (compute o ins).power_out_A i
      = o.efficiency * min (ins.power_in i) (ins.power_split i) ∧
    (compute o ins).power_out_B i
      = o.efficiency * max (ins.power_in i - ins.power_split i) 0 ∧
    (0 ≤ o.efficiency → 0 ≤ (compute o ins).power_out_B i) ∧
    (0 ≤ o.efficiency → 0 ≤ ins.power_in i →
      (compute o ins).power_out_A i ≤ o.efficiency * ins.power_split i) := by
  have hA : (compute o ins).power_out_A i
      = o.efficiency * min (ins.power_in i) (ins.power_split i) := by
    rcases lt_or_le (ins.power_in i) (ins.power_split i) with hlt | hle
    · simp [compute, h, if_pos hlt, min_eq_left hlt.le, mul_comm]
    · simp [compute, h, if_neg (not_lt.mpr hle), min_eq_right hle, mul_comm]
  have hB : (compute o ins).power_out_B i
      = o.efficiency * max (ins.power_in i - ins.power_split i) 0 := by
    rcases lt_or_le (ins.power_in i) (ins.power_split i) with hlt | hle
    · simp [compute, h, if_pos hlt, max_eq_right (sub_nonpos.mpr hlt.le)]
    · simp [compute, h, if_neg (not_lt.mpr hle),
        max_eq_left (sub_nonneg.mpr hle), mul_comm]
  refine ⟨hA, hB, fun heta => ?_, fun heta _ => ?_⟩
  · rw [hB]
    exact mul_nonneg heta (le_max_right _ _)
  · rw [hA]
    exact mul_le_mul_of_nonneg_left (min_le_right _ _) heta

/-- C10 witness: the saturation example (`power_in = 50`,
`split_amount = 80`, `η = 1`) instantiates the closed form:
`power_out_A = min 50 80 = 50` and `power_out_B = max (50 - 80) 0 = 0`,
with both consequences discharged at `η = 1 ≥ 0`, `power_in = 50 ≥ 0`. -/
theorem C10_fixed_closed_form_witness :
    ((compute exFixedOpts exFixedIns).power_out_A 0
        = 1 * min (50 : ℚ) 80 ∧
      (compute exFixedOpts exFixedIns).power_out_B 0
        = 1 * max ((50 : ℚ) - 80) 0) ∧
    0 ≤ (compute exFixedOpts exFixedIns).power_out_B 0 ∧
    (compute exFixedOpts exFixedIns).power_out_A 0 ≤ 1 * 80 := by
  obtain ⟨hA, hB, hBpos, hAle⟩ :=
    C10_fixed_closed_form exFixedOpts exFixedIns 0 rfl
  exact ⟨⟨hA, hB⟩, hBpos (by norm_num), hAle (by norm_num) (by norm_num)⟩

end PowerSplit
